import Mathlib

/-!
Verification of the PBS/Torque batch plugin
(`src/nipype/pipeline/plugins/pbs.py`, class `PBSPlugin`).

The two methods under study are `_is_pending` and `_submit_batchtask`.
Each runs one external command (`qstat` resp. `qsub`) and then inspects
the captured process result.  We embed them shallowly: the external
process run is a parameter (a `ProcResult` record of exit code, stdout
and stderr), Python strings are Lean `String`/`List Char`, the mutable
`self._pending` dictionary is threaded explicitly as state, and raised
Python exceptions become an `Except`-style error component of the
return value (with the state returned alongside, since in Python a
mutation performed before a raise persists).

A scope fact that the embedding must record: the module `pbs.py` binds,
at module level, only `os`, `SGELikeBatchManagerBase`, `logger`,
`CommandLine` and `PBSPlugin`, and `_submit_batchtask` never assigns a
local named `node`; hence every evaluation of the expressions
`node.output_dir()` and `node._id` inside `_submit_batchtask` raises
`NameError` (Python resolves the free name `node` through the local,
module and builtin scopes and finds nothing).  Both branches after
`cmd.run()` reach such an expression before any other observable
effect on that branch other than the id parse, so the embedding maps
them to a `nameError "node"` outcome at exactly the program point where
Python raises.
-/

/-- Result of running one external command: exit status, captured
standard output and captured standard error (`result.runtime` in the
source). -/
structure ProcResult where
  returncode : Int
  stdout : String
  stderr : String
deriving Repr, DecidableEq

/-- The Python exceptions the embedded code can raise. -/
inductive PyError where
  /-- `NameError`: a free name resolved to no binding. -/
  | nameError : String → PyError
  /-- `ValueError`: `int()` applied to a non-numeric literal. -/
  | valueError : String → PyError
  /-- `IndexError`: list index out of range. -/
  | indexError : PyError
  /-- `RuntimeError`: the explicit raise in `_submit_batchtask`
  (the spec calls this exception `SubmissionError`). -/
  | runtimeError : String → PyError
deriving Repr, DecidableEq

/-- The mutable state of a `PBSPlugin` instance that the two methods
touch: `self._qsub_args` (empty string when unset) and the pending-job
table `self._pending` (job id -> node output directory). -/
structure PBSState where
  qsub_args : String
  pending : List (Int × String)
deriving Repr, DecidableEq

/-- Python `str.split(' ')`: split on every single space character,
keeping empty pieces (`''.split(' ') == ['']`, `' a'.split(' ') ==
['', 'a']`). -/
def splitOnSpace : List Char → List (List Char)
  | [] => [[]]
  | c :: rest =>
    if c = ' ' then
      [] :: splitOnSpace rest
    else
      match splitOnSpace rest with
      | [] => [[c]]
      | t :: ts => (c :: t) :: ts

/-- Python `str.startswith(pre)`. -/
def pyStartsWith (s pre : String) : Bool :=
  pre.data.isPrefixOf s.data

/-- Python `str.strip()` (both ends). -/
def pyStrip (cs : List Char) : List Char :=
  ((cs.dropWhile Char.isWhitespace).reverse.dropWhile Char.isWhitespace).reverse

/-- A non-empty all-digit character run, read as a natural number
(helper for `pyInt`). -/
def pyParseDigits : List Char → Option Nat
  | [] => none
  | cs =>
    if cs.all Char.isDigit then
      some (cs.foldl (fun a c => 10 * a + (c.toNat - 48)) 0)
    else
      none

/-- Python `int(s)` on a string: strip whitespace, optional sign, then
a non-empty digit run; `none` models the `ValueError` raise. -/
def pyInt : List Char → Option Int
  | cs =>
    match pyStrip cs with
    | '-' :: rest => (pyParseDigits rest).map (fun n => -(n : Int))
    | '+' :: rest => (pyParseDigits rest).map (fun n => (n : Int))
    | stripped => (pyParseDigits stripped).map (fun n => (n : Int))

/-- The id parse in `_submit_batchtask` line 48:
`int(result.runtime.stdout.split(' ')[2])`.  The indexing raises
`IndexError` when fewer than three pieces exist; `int()` raises
`ValueError` on a non-numeric piece. -/
def pbs_taskid_of_stdout (stdout : String) : Except PyError Int :=
  match (splitOnSpace stdout.data)[2]? with
  | none => Except.error PyError.indexError
  | some tok =>
    match pyInt tok with
    | none => Except.error (PyError.valueError (String.mk tok))
    | some n => Except.ok n

/-- The argument string handed to `qsub` in `_submit_batchtask` lines
40-43: `qsubargs = self._qsub_args if self._qsub_args else ''`, then
`'%s %s' % (qsubargs, scriptfile)`. -/
def qsub_invocation_args (qsub_args scriptfile : String) : String :=
  let qsubargs := if qsub_args ≠ "" then qsub_args else ""
  qsubargs ++ " " ++ scriptfile

/-- Word-splitting of an argument string as the shell performs it on
the assembled command line: space-separated pieces, empty pieces
dropped. -/
def shellWords (s : String) : List (List Char) :=
  (splitOnSpace s.data).filter (fun w => w ≠ [])

/-- Embedding of `PBSPlugin._is_pending` (pbs.py lines 29-36): build
the `qstat -j <taskid>` invocation, run it (the run's outcome is the
`qstatResult` parameter), and answer whether its stdout starts with
`'='`.  The method assigns to no attribute of `self`, so the state is
returned as received. -/
def is_pending (st : PBSState) (taskid : Int) (qstatResult : ProcResult) :
    Bool × PBSState :=
  let _args := "-j " ++ toString taskid
  (pyStartsWith qstatResult.stdout "=", st)

/-- Embedding of `PBSPlugin._submit_batchtask` (pbs.py lines 38-54):
build the `qsub` argument string, run `qsub` (outcome: the `result`
parameter), then
  - on zero exit status: parse the task id from stdout (line 48); the
    next statement evaluates `node.output_dir()` whose free name
    `node` is unbound in every enclosing scope, so `NameError` is
    raised before the store into `self._pending[taskid]` happens and
    before the `return taskid`;
  - on non-zero exit status: the message
    `'Could not submit pbs task for node %s' % node._id` evaluates
    `node._id` first, so the same `NameError` preempts the intended
    `RuntimeError(... stderr)`.
The state is returned alongside the outcome because Python mutations
made before a raise would persist; here no branch reaches a mutation. -/
def submit_batchtask (st : PBSState) (scriptfile : String) (result : ProcResult) :
    Except PyError Int × PBSState :=
  let _args := qsub_invocation_args st.qsub_args scriptfile
  if result.returncode = 0 then
    match pbs_taskid_of_stdout result.stdout with
    | Except.error e => (Except.error e, st)
    | Except.ok _taskid => (Except.error (PyError.nameError "node"), st)
  else
    (Except.error (PyError.nameError "node"), st)

/-- Does the outcome carry the exception the spec names
`SubmissionError` (the `RuntimeError` raise of pbs.py line 52)? -/
def isSubmissionError : Except PyError Int → Bool
  | Except.error (PyError.runtimeError _) => true
  | _ => false

lemma pbs_taskid_error_shape (stdout : String) (e : PyError)
    (h : pbs_taskid_of_stdout stdout = Except.error e) :
    e = PyError.indexError ∨ ∃ tok, e = PyError.valueError tok := by
  unfold pbs_taskid_of_stdout at h
  split at h
  · injection h with h4
    exact Or.inl h4.symm
  · split at h
    · injection h with h4
      exact Or.inr ⟨_, h4.symm⟩
    · exact Except.noConfusion h

/-- C1: the claim says a zero-exit `qsub` run makes `_submit_batchtask`
return the integer in the third token of stdout.  The code does compute
that integer (second conjunct: the parse of the fixture stdout
`"your job 12345 ("` yields `12345`), but the call then evaluates
`node.output_dir()` with `node` unbound and raises `NameError` before
returning anything (first conjunct). -/
theorem C1_success_path_code_behavior :
    submit_batchtask ⟨"", []⟩ "script.sh" ⟨0, "your job 12345 (", ""⟩ =
      (Except.error (PyError.nameError "node"), ⟨"", []⟩) ∧
    pbs_taskid_of_stdout "your job 12345 (" = Except.ok 12345 := by
  exact ⟨rfl, rfl⟩

/-- C2: the claim says the identifier `node` is bound at its points of
use, so no `NameError` arises on either branch.  In the code `node` is
unbound, and both the success branch (zero exit, parseable stdout) and
the failure branch (non-zero exit) raise `NameError`. -/
theorem C2_node_unbound_nameError :
    (submit_batchtask ⟨"", []⟩ "batchscript.sh" ⟨0, "your job 777 (", ""⟩).1 =
      Except.error (PyError.nameError "node") ∧
    (submit_batchtask ⟨"", []⟩ "batchscript.sh" ⟨1, "", "no such queue"⟩).1 =
      Except.error (PyError.nameError "node") := by
  exact ⟨rfl, rfl⟩

/-- C3: `_is_pending` answers true exactly when the stdout of the
`qstat` run begins with the character `=`; every other stdout,
the empty string included, yields false. -/
theorem C3_is_pending_iff_stdout_starts_eq :
    ∀ (st : PBSState) (taskid : Int) (r : ProcResult),
      (is_pending st taskid r).1 = true ↔ ∃ cs, r.stdout.data = '=' :: cs := by
  intro st taskid r
  have hfst : (is_pending st taskid r).1 = List.isPrefixOf ['='] r.stdout.data := rfl
  rw [hfst]
  cases hl : r.stdout.data with
  | nil => simp [List.isPrefixOf]
  | cons c cs =>
    simp [List.isPrefixOf, List.cons.injEq]
    exact eq_comm

/-- C4: the claim says a non-zero `qsub` exit makes the call fail with
the submission error (the `RuntimeError` of line 52) carrying the
captured stderr.  The code instead raises `NameError` while formatting
that message (`node._id`, with `node` unbound), so the error that
propagates is not the submission error and carries no stderr. -/
theorem C4_nonzero_exit_nameError_not_submission_error :
    (submit_batchtask ⟨"", []⟩ "script.sh" ⟨1, "", "no such queue"⟩).1 =
      Except.error (PyError.nameError "node") ∧
    isSubmissionError
      (submit_batchtask ⟨"", []⟩ "script.sh" ⟨1, "", "no such queue"⟩).1 = false := by
  exact ⟨rfl, rfl⟩

/-- C5 counterexample: with a zero exit status and stdout
`"your job abc ("` whose third token is not numeric, the call fails
with `ValueError`, not with the submission error the claim names. -/
theorem C5_counterexample_valueError_not_submission_error :
    (submit_batchtask ⟨"", []⟩ "script.sh" ⟨0, "your job abc (", ""⟩).1 =
      Except.error (PyError.valueError "abc") ∧
    isSubmissionError
      (submit_batchtask ⟨"", []⟩ "script.sh" ⟨0, "your job abc (", ""⟩).1 = false := by
  exact ⟨rfl, rfl⟩

/-- C5 amended: on a zero exit status with an absent or unparseable id
token, `_submit_batchtask` fails with exactly the parse error —
`IndexError` when fewer than three space-separated pieces exist,
`ValueError` when the third piece is not an integer literal — rather
than with a `SubmissionError`. -/
theorem C5_parse_failure_raises_parse_error :
    ∀ (st : PBSState) (sf : String) (r : ProcResult) (e : PyError),
      r.returncode = 0 →
      pbs_taskid_of_stdout r.stdout = Except.error e →
      (submit_batchtask st sf r).1 = Except.error e ∧
        (e = PyError.indexError ∨ ∃ tok, e = PyError.valueError tok) := by
  intro st sf r e h0 hparse
  refine ⟨?_, pbs_taskid_error_shape r.stdout e hparse⟩
  simp [submit_batchtask, h0, hparse]

/-- Witness for C5 amended at stdout `"x"` (fewer than three pieces). -/
theorem C5_parse_failure_witness :
    (submit_batchtask ⟨"", []⟩ "script.sh" ⟨0, "x", ""⟩).1 =
      Except.error PyError.indexError ∧
    (PyError.indexError = PyError.indexError ∨
      ∃ tok, PyError.indexError = PyError.valueError tok) :=
  C5_parse_failure_raises_parse_error ⟨"", []⟩ "script.sh" ⟨0, "x", ""⟩
    PyError.indexError rfl rfl

/-- C6: when the `qsub` run exits non-zero, no entry is added to the
pending-job table before the error propagates: the table component of
the result equals the table the call started from. -/
theorem C6_failed_submission_pending_unchanged :
    ∀ (st : PBSState) (sf : String) (r : ProcResult),
      r.returncode ≠ 0 → (submit_batchtask st sf r).2.pending = st.pending := by
  intro st sf r h
  simp [submit_batchtask, h]

/-- Witness for C6 at exit status 1 and a non-empty initial table. -/
theorem C6_failed_submission_witness :
    ((⟨1, "", "boom"⟩ : ProcResult).returncode ≠ 0) ∧
    (submit_batchtask ⟨"-q long", [((3 : Int), "/out")]⟩ "s.sh"
        ⟨1, "", "boom"⟩).2.pending = [((3 : Int), "/out")] :=
  ⟨by decide,
    C6_failed_submission_pending_unchanged ⟨"-q long", [((3 : Int), "/out")]⟩
      "s.sh" ⟨1, "", "boom"⟩ (by decide)⟩

/-- C7: the claim says a successful run (zero exit, parseable token)
inserts an entry keyed by the parsed id before returning it.  The code
parses the id (third conjunct) but evaluates `node.output_dir()` with
`node` unbound before the store into `self._pending`, so the table
stays empty (first conjunct) and `NameError` propagates instead of a
return (second conjunct). -/
theorem C7_success_inserts_nothing :
    (submit_batchtask ⟨"", []⟩ "script.sh" ⟨0, "your job 999 (", ""⟩).2.pending =
      [] ∧
    (submit_batchtask ⟨"", []⟩ "script.sh" ⟨0, "your job 999 (", ""⟩).1 =
      Except.error (PyError.nameError "node") ∧
    pbs_taskid_of_stdout "your job 999 (" = Except.ok 999 := by
  exact ⟨rfl, rfl, rfl⟩

/-- C8: the argument string handed to `qsub` is always the configured
extra args, verbatim, then a space, then the script path; and with no
extra args configured the string word-splits to exactly the words of
the script path alone (the leading separator contributes no word). -/
theorem C8_extra_args_prepended :
    ∀ (qa sf : String),
      qsub_invocation_args qa sf = qa ++ " " ++ sf ∧
      shellWords (qsub_invocation_args "" sf) = shellWords sf := by
  intro qa sf
  constructor
  · unfold qsub_invocation_args
    by_cases h : qa = ""
    · subst h; rfl
    · simp [h]
  · have h1 : (qsub_invocation_args "" sf).data = ' ' :: sf.data := by
      have e1 : qsub_invocation_args "" sf = " " ++ sf := by
        unfold qsub_invocation_args; simp
      rw [e1, String.data_append]
      rfl
    unfold shellWords
    rw [h1]
    have h2 : splitOnSpace (' ' :: sf.data) = [] :: splitOnSpace sf.data := by
      simp [splitOnSpace]
    rw [h2]
    simp [List.filter_cons]

/-- C9: `_is_pending` never mutates the pending-job table (nor any
other plugin state): the state component of its result is the state it
was called with, whatever boolean it answers. -/
theorem C9_is_pending_preserves_table :
    ∀ (st : PBSState) (taskid : Int) (r : ProcResult),
      (is_pending st taskid r).2 = st := by
  intro st taskid r
  rfl

/-- C10: the boolean `_is_pending` answers depends only on the stdout
of the `qstat` run: two invocations with identical stdout agree even
when their exit codes, stderr streams, task ids and plugin states all
differ. -/
theorem C10_is_pending_depends_only_on_stdout :
    ∀ (st1 st2 : PBSState) (t1 t2 : Int) (r1 r2 : ProcResult),
      r1.stdout = r2.stdout →
      (is_pending st1 t1 r1).1 = (is_pending st2 t2 r2).1 := by
  intro st1 st2 t1 t2 r1 r2 h
  simp [is_pending, pyStartsWith, h]

/-- Witness for C10: same stdout, different exit codes, stderr streams,
task ids and states. -/
theorem C10_is_pending_witness :
    (((⟨0, "=queued", ""⟩ : ProcResult).stdout =
        (⟨7, "=queued", "warning"⟩ : ProcResult).stdout)) ∧
    (is_pending ⟨"", []⟩ 1 ⟨0, "=queued", ""⟩).1 =
      (is_pending ⟨"-q x", [((4 : Int), "/d")]⟩ 9 ⟨7, "=queued", "warning"⟩).1 :=
  ⟨rfl,
    C10_is_pending_depends_only_on_stdout ⟨"", []⟩ ⟨"-q x", [((4 : Int), "/d")]⟩
      1 9 ⟨0, "=queued", ""⟩ ⟨7, "=queued", "warning"⟩ rfl⟩
